import Mathlib

/-!
Shallow embedding of the container-lifecycle core of viamrobotics/canon
(src/container.go, src/shell.go, src/update.go).

External effects (the Docker engine API, the host filesystem, the clock,
the random source) are modelled as oracle inputs: each embedded function
takes the responses the Go code would have received from those calls and
returns the Go function result together with the list of engine actions
it performed, in order.
-/

namespace Canon

/-- Engine API calls the embedded functions can perform, recorded as a trace. -/
inductive Action where
  | listContainers
  | createContainer (name : String) (labels : List (String × String))
  | startCont (id : String)
  | stopCont (id : String)
  | removeCont (id : String)
  | attachCont (id : String)
  | inspectCont (id : String)
  | inspectImage (name : String)
  | pullImage (image platform : String)
  | writeCheckData
deriving DecidableEq, Repr

/-- Does the action create, start, stop or remove a container? -/
def Action.isMutation : Action → Bool
  | .createContainer _ _ => true
  | .startCont _ => true
  | .stopCont _ => true
  | .removeCont _ => true
  | _ => false

/-- Is the action a container creation? -/
def Action.isCreate : Action → Bool
  | .createContainer _ _ => true
  | _ => false

/-! ## Go string helpers (strings.HasPrefix / TrimPrefix / Contains) -/

/-- Is `pat` a leading segment of `s`? -/
def listHasPref : List Char → List Char → Bool
  | _, [] => true
  | [], _ :: _ => false
  | c :: cs, p :: ps => c == p && listHasPref cs ps

/-- Go strings.HasPrefix. -/
def goHasPref (s pre : String) : Bool :=
  listHasPref s.toList pre.toList

/-- Go strings.TrimPrefix. -/
def goTrimPref (s pre : String) : String :=
  if goHasPref s pre then String.mk (s.toList.drop pre.toList.length) else s

/-- Does `s` contain `pat` as a contiguous segment? -/
def listContainsSub (s pat : List Char) : Bool :=
  match s with
  | [] => pat.isEmpty
  | _ :: rest => listHasPref s pat || listContainsSub rest pat

/-- Go strings.Contains. -/
def goContains (s sub : String) : Bool :=
  listContainsSub s.toList sub.toList

/-! ## Go path/filepath (unix): Clean and Join -/

/-- Split a character list at every occurrence of `c` (Go strings.Split). -/
def splitOnChar (c : Char) : List Char → List (List Char)
  | [] => [[]]
  | x :: xs =>
    if x == c then [] :: splitOnChar c xs
    else
      match splitOnChar c xs with
      | seg :: rest => (x :: seg) :: rest
      | [] => [[x]]

/-- Join strings with a separator. -/
def joinWith (sep : String) : List String → String
  | [] => ""
  | [x] => x
  | x :: xs => x ++ sep ++ joinWith sep xs

/-- One element step of Go path.Clean over already-split path elements. -/
def cleanStep (rooted : Bool) (out : List String) (e : String) : List String :=
  if e = "" ∨ e = "." then out
  else if e = ".." then
    match out with
    | [] => if rooted then [] else [".."]
    | top :: rest => if top = ".." then e :: out else rest
  else e :: out

/-- Go path.Clean for slash-separated paths (what filepath.Clean does on unix). -/
def pathClean (p : String) : String :=
  if p = "" then "." else
  let rooted := goHasPref p "/"
  let elems := (splitOnChar '/' p.toList).map String.mk
  let out := (elems.foldl (cleanStep rooted) []).reverse
  let body := joinWith "/" out
  if rooted then "/" ++ body
  else if body = "" then "." else body

/-- Go filepath.Join: drop leading empty elements, join with "/", then Clean. -/
def filepathJoin (elems : List String) : String :=
  match elems.dropWhile (· = "") with
  | [] => ""
  | es => pathClean (joinWith "/" es)

/-! ## Data model -/

/-- Resolved profile (src/config.go `type Profile struct`); time values as Nat. -/
structure Profile where
  name : String
  Default : Bool := false
  Image : String := ""
  ImageAMD64 : String := ""
  Image386 : String := ""
  ImageARM64 : String := ""
  ImageARM : String := ""
  ImageARMv6 : String := ""
  Arch : String := ""
  MinimumDate : Nat := 0
  UpdateInterval : Nat := 0
  Persistent : Bool := false
  SSH : Bool := false
  NetRC : Bool := false
  User : String := ""
  Group : String := ""
  Path : String := ""
deriving DecidableEq, Repr

/-- Deterministic model of yaml.Marshal on a Profile: a fixed rendering of the
exported fields (the unexported `name` is not marshalled by go-yaml).  Only
determinism and equality of renderings matter to the embedded code, which
compares the marshalled bytes against a stored label for equality. -/
def profileYaml (p : Profile) : String :=
  "default: " ++ toString p.Default ++ "\n" ++
  "image: " ++ p.Image ++ "\n" ++
  "image_amd64: " ++ p.ImageAMD64 ++ "\n" ++
  "image_386: " ++ p.Image386 ++ "\n" ++
  "image_arm64: " ++ p.ImageARM64 ++ "\n" ++
  "image_arm: " ++ p.ImageARM ++ "\n" ++
  "image_arm_v6: " ++ p.ImageARMv6 ++ "\n" ++
  "arch: " ++ p.Arch ++ "\n" ++
  "minimum_date: " ++ toString p.MinimumDate ++ "\n" ++
  "update_interval: " ++ toString p.UpdateInterval ++ "\n" ++
  "persistent: " ++ toString p.Persistent ++ "\n" ++
  "ssh: " ++ toString p.SSH ++ "\n" ++
  "netrc: " ++ toString p.NetRC ++ "\n" ++
  "user: " ++ p.User ++ "\n" ++
  "group: " ++ p.Group ++ "\n" ++
  "path: " ++ p.Path ++ "\n"

/-- Summary of a container as returned by ContainerList. -/
structure ContainerSummary where
  ID : String
  Labels : List (String × String)
deriving DecidableEq, Repr

/-- Lookup in a label map (Go `labels[key]`, with the `ok` flag as Option). -/
def lookupLabel (ls : List (String × String)) (k : String) : Option String :=
  (ls.find? (fun kv => kv.1 == k)).map (·.2)

/-- src/container.go `canonMountPoint`. -/
def canonMountPoint : String := "/host"

/-! ## getWorkingDir (src/shell.go lines 184-195) -/

/-- src/shell.go getWorkingDir, with the host `os.Getwd()` result as input. -/
def getWorkingDir (profile : Profile) (cwd : String) : Except String String :=
  if !(goHasPref cwd profile.Path) then
    .error "current directory is not within the current profile\x27s path"
  else
    .ok (filepathJoin [canonMountPoint, goTrimPref cwd profile.Path])

/-! ## Readiness scan (src/container.go lines 206-212)

The attached output stream is modelled as the list of complete lines it
yields, plus the terminal condition of `bufio.Scanner`: `none` for a clean
EOF (`Scan` returns false and `Err()` is nil) or `some e` for a read error
(`Err()` returns it).  The result is the value of `scanner.Err()` that the
Go code returns, paired with the lines left unconsumed at the `break`. -/
def scanReady : List String → Option String → Option String × List String
  | [], termErr => (termErr, [])
  | l :: ls, termErr =>
    if goContains l "CANON_READY" then (none, ls)
    else scanReady ls termErr

/-! ## getPersistentContainer (src/container.go lines 241-274)

Input: the engine response to the label-filtered ContainerList
(`type=persistent`, `profile=<name>/<arch>`).  The src/shell.go variant
(lines 470-503) is identical except that on success it additionally
issues ContainerStart on the matched container. -/
def getPersistentContainer (profile : Profile)
    (listResult : Except String (List ContainerSummary)) :
    Except String String × List Action :=
  match listResult with
  | .error e => (.error e, [.listContainers])
  | .ok containers =>
    if containers.length > 1 then
      (.error ("more than one container is running for profile " ++ profile.name ++
        ", please terminate all containers and retry"), [.listContainers])
    else
      match containers with
      | [] => (.ok "", [.listContainers])
      | c :: _ =>
        match lookupLabel c.Labels "com.viam.canon.profile-data" with
        | none =>
          (.error ("no profile data on persistent container for " ++ profile.name ++
            ", please terminate all containers and retry"), [.listContainers])
        | some profYaml =>
          if profYaml ≠ profileYaml profile then
            (.error ("existing container settings for " ++ profile.name ++
              " don\x27t match current settings, please terminate all containers and retry"),
              [.listContainers])
          else
            (.ok c.ID, [.listContainers])

/-! ## Container creation (src/container.go lines 146-213) -/

/-- Lowercase hex rendering of a Nat (Go fmt %x). -/
def goHexStr (n : Nat) : String := String.mk (Nat.toDigits 16 n)

/-- src/container.go line 162: the container name, with the drawn random
32-bit value as input. -/
def containerName (profile : Profile) (rand : Nat) : String :=
  "canon-" ++ profile.name ++ "-" ++ goHexStr rand

/-- src/container.go lines 152-159: the labels set on the created container
(the map literal followed by the conditional overwrite of the type key). -/
def containerLabels (profile : Profile) : List (String × String) :=
  [("com.viam.canon.type", if profile.Persistent then "persistent" else "one-shot"),
   ("com.viam.canon.profile", profile.name ++ "/" ++ profile.Arch),
   ("com.viam.canon.profile-data", profileYaml profile)]

/-- Engine response to one ContainerCreate call. -/
inductive CreateResult where
  | ok (id : String)
  | err (msg : String)
deriving DecidableEq, Repr

/-- src/container.go line 175: the retryable creation errors. -/
def isRetryableCreateErr (msg : String) : Bool :=
  goContains msg "does not match the specified platform" || goContains msg "No such image"

/-- src/container.go lines 172-187: ContainerCreate with the single
pull-and-retry on a missing-image / wrong-platform error.  Inputs: the
engine responses to the first create, to the pull (`none` = pull
succeeded), and to the retried create. -/
def createWithRetry (profile : Profile) (rand : Nat)
    (c1 : CreateResult) (pullRes : Option String) (c2 : CreateResult) :
    Except String String × List Action :=
  let nm := containerName profile rand
  let lbs := containerLabels profile
  let createAct := Action.createContainer nm lbs
  let pullAct := Action.pullImage profile.Image ("linux/" ++ profile.Arch)
  match c1 with
  | .ok id => (.ok id, [createAct])
  | .err msg =>
    if isRetryableCreateErr msg then
      match pullRes with
      | some pe => (.error pe, [createAct, pullAct])
      | none =>
        match c2 with
        | .ok id => (.ok id, [createAct, pullAct, createAct])
        | .err m2 => (.error m2, [createAct, pullAct, createAct])
    else
      (.error msg, [createAct])

/-- A Go `(containerID, err)` pair as returned by startContainer. -/
structure GoResult where
  id : String
  err : Option String
deriving DecidableEq, Repr

/-- Engine and stream responses consumed by one startContainer run. -/
structure StartOracle where
  createRes : CreateResult
  pullRes : Option String
  createRes2 : CreateResult
  startRes : Option String
  attachRes : Option String
  streamLines : List String
  streamEndErr : Option String
deriving Repr

/-- src/container.go startContainer from the labelling step on (lines
146-213): create (with the one pull retry), start, attach, then the
line-by-line readiness scan.  The mount-set assembly of lines 57-144 only
populates the create request from the host environment and is elided; the
oracle carries the responses of the engine calls. -/
def startContainer (profile : Profile) (rand : Nat) (o : StartOracle) :
    GoResult × List Action :=
  let (createOut, acts) := createWithRetry profile rand o.createRes o.pullRes o.createRes2
  match createOut with
  | .error e => ({ id := "", err := some e }, acts)
  | .ok cid =>
    match o.startRes with
    | some e => ({ id := cid, err := some e }, acts ++ [.startCont cid])
    | none =>
      match o.attachRes with
      | some e => ({ id := "", err := some e }, acts ++ [.startCont cid, .attachCont cid])
      | none =>
        let (scanErr, _) := scanReady o.streamLines o.streamEndErr
        ({ id := cid, err := scanErr }, acts ++ [.startCont cid, .attachCont cid])

/-! ## checkContainerImageVersion (src/container.go lines 276-293) -/

/-- The two ContainerInspect fields the check reads: `info.Image` (the image
ID the container runs) and `info.Config.Image` (the configured image name). -/
structure InspectInfo where
  Image : String
  ConfigImage : String
deriving DecidableEq, Repr

/-- src/container.go checkContainerImageVersion.  Inputs: the ContainerInspect
response and the ImageInspectWithRaw response (the ID of the image currently
bearing the container\x27s configured name). -/
def checkContainerImageVersion (containerID : String)
    (inspectRes : Except String InspectInfo)
    (imageInspectRes : Except String String) :
    Except String Bool × List Action :=
  match inspectRes with
  | .error e => (.error e, [.inspectCont containerID])
  | .ok info =>
    match imageInspectRes with
    | .error e => (.error e, [.inspectCont containerID, .inspectImage info.ConfigImage])
    | .ok imageID =>
      (.ok (if imageID == info.Image then false else true),
        [.inspectCont containerID, .inspectImage info.ConfigImage])

/-! ## The shell acquisition phase (src/shell.go lines 44-73)

After `checkUpdate` (update-timestamp bookkeeping, out of this slice),
`shell` acquires a container: the persistent lookup, then either the
image-drift warning on a reused container or a fresh startContainer, then
the working-directory computation.  The oracle bundles the engine
responses each branch would consume. -/

structure ShellOracle where
  listPersistent : Except String (List ContainerSummary)
  rand : Nat
  startO : StartOracle
  inspectRes : Except String InspectInfo
  imageInspectRes : Except String String
  cwd : String
deriving Repr

/-- Outcome of the acquisition phase: the container to exec into, whether
the out-of-date-image warning was printed, and the working directory. -/
structure ShellPhase where
  containerID : String
  warned : Bool
  wd : String
deriving DecidableEq, Repr

/-- src/shell.go lines 44-73: persistent lookup, drift warning or fresh
start, then getWorkingDir. -/
def shellAcquire (p : Profile) (o : ShellOracle) :
    Except String ShellPhase × List Action :=
  let (pidRes, acts1) :=
    if p.Persistent then getPersistentContainer p o.listPersistent
    else (.ok "", [])
  match pidRes with
  | .error e => (.error e, acts1)
  | .ok cid0 =>
    if cid0 ≠ "" then
      let (chkRes, acts2) := checkContainerImageVersion cid0 o.inspectRes o.imageInspectRes
      match chkRes with
      | .error e => (.error e, acts1 ++ acts2)
      | .ok needsUpdate =>
        match getWorkingDir p o.cwd with
        | .error e => (.error e, acts1 ++ acts2)
        | .ok wd => (.ok ⟨cid0, needsUpdate, wd⟩, acts1 ++ acts2)
    else
      let (res, acts2) := startContainer p o.rand o.startO
      match res.err with
      | some e => (.error e, acts1 ++ acts2)
      | none =>
        match getWorkingDir p o.cwd with
        | .error e => (.error e, acts1 ++ acts2)
        | .ok wd => (.ok ⟨res.id, false, wd⟩, acts1 ++ acts2)

/-! ## The interactive bridge select (src/shell.go lines 135-153)

The session runs two copy loops; the main routine blocks on a `select`
over their completion channels.  `FirstEv` records which channel the
outer select received from and the error value it carried; when the
inbound loop completed first with a nil error, the code enters a second
select over the outbound channel and the cancellation context, recorded
by `SecondEv`.  `outDrained` in the outcome records whether the bridge
returned in a branch in which the outbound (remote to host stdout) loop
had reported completion. -/

inductive FirstEv where
  | fromOut (e : Option String)
  | fromIn (e : Option String)
deriving DecidableEq, Repr

inductive SecondEv where
  | outDone (e : Option String)
  | cancelled (e : String)
deriving DecidableEq, Repr

/-- Did the second select take the cancellation branch? -/
def SecondEv.isCancel : SecondEv → Bool
  | .cancelled _ => true
  | .outDone _ => false

/-- Result reported for the session, and whether the outbound loop had
completed when the bridge returned. -/
structure BridgeOutcome where
  result : Option String
  outDrained : Bool
deriving DecidableEq, Repr

/-- src/shell.go lines 135-153: the nested select over the two completion
channels and the cancellation context. -/
def bridgeSelect : FirstEv → SecondEv → BridgeOutcome
  | .fromOut e, _ => ⟨e, true⟩
  | .fromIn (some e), _ => ⟨some e, false⟩
  | .fromIn none, .outDone e => ⟨e, true⟩
  | .fromIn none, .cancelled e => ⟨some e, false⟩

/-! ## stop (src/shell.go lines 406-434) -/

/-- src/shell.go lines 424-432: the per-container loop.  `stopRes` and
`removeRes` are the engine responses keyed by container ID (`none` =
success); errors.Join accumulation is modelled as the list of the non-nil
errors in order (empty list = nil combined error). -/
def stopLoop (terminate : Bool) (stopRes removeRes : String → Option String) :
    List ContainerSummary → List String × List Action
  | [] => ([], [])
  | c :: rest =>
    let (e1, a1) :=
      if terminate then (removeRes c.ID, Action.removeCont c.ID)
      else (stopRes c.ID, Action.stopCont c.ID)
    let (errs, acts) := stopLoop terminate stopRes removeRes rest
    (match e1 with
     | some e => e :: errs
     | none => errs, a1 :: acts)

set_option linter.unusedVariables false

/-- src/shell.go stop: list by label (exact profile label unless `all`),
refuse multiple matches on a non-`all` request, otherwise stop or
force-remove each match, joining the errors.  The profile parameter only
shapes the label filter, whose response is `listRes`. -/
def stop (profile : Profile) (all terminate : Bool)
    (listRes : Except String (List ContainerSummary))
    (stopRes removeRes : String → Option String) :
    List String × List Action :=
  match listRes with
  | .error e => ([e], [.listContainers])
  | .ok containers =>
    if containers.length > 1 ∧ ¬ all then
      (["multiple matching containers found, please retry with \x27--all\x27 option"],
        [.listContainers])
    else
      let (errs, acts) := stopLoop terminate stopRes removeRes containers
      (errs, Action.listContainers :: acts)

/-! ## update (src/update.go lines 49-86, 233-247)

The on-disk update-timestamp cache is modelled as an association list from
ImageDef to the recorded time; `checkData.write()` replaces the file
contents with the in-memory data.  `updateRun` returns the Go error, the
file contents after the call, and the action trace. -/

/-- src/update.go ImageDef. -/
structure ImageDef where
  Image : String
  Platform : String
deriving DecidableEq, Repr

/-- The parsed update-timestamp cache (src/update.go ImageCheckData),
as an association list; times as Nat. -/
abbrev ImageCheckData := List (ImageDef × Nat)

/-- Go map assignment `checkData[i] = t`: replace the binding if present,
append otherwise. -/
def setTime : List (ImageDef × Nat) → ImageDef → Nat → List (ImageDef × Nat)
  | [], i, t => [(i, t)]
  | (k, v) :: rest, i, t =>
    if k = i then (i, t) :: rest else (k, v) :: setTime rest i t

/-- Outcome of one iteration of the pull loop for one image: the ImagePull
error, the DisplayJSONMessagesStream error, and the response-close error,
checked in that order (src/update.go lines 70-82). -/
structure PullOutcome where
  pullErr : Option String
  displayErr : Option String
  closeErr : Option String
deriving DecidableEq, Repr

/-- The first failing step of one pull iteration, if any. -/
def PullOutcome.firstErr (o : PullOutcome) : Option String :=
  match o.pullErr with
  | some e => some e
  | none =>
    match o.displayErr with
    | some e => some e
    | none => o.closeErr

/-- src/update.go lines 69-84: the pull loop.  On the first failing step the
function returns that error; otherwise `checkData[i] = time.Now()` is
recorded and the loop continues.  `clock` supplies successive time values. -/
def pullLoop (outc : ImageDef → PullOutcome) (clock : Nat) :
    List ImageDef → List (ImageDef × Nat) →
    Option String × List (ImageDef × Nat) × List Action
  | [], data => (none, data, [])
  | i :: rest, data =>
    match (outc i).firstErr with
    | some e => (some e, data, [.pullImage i.Image i.Platform])
    | none =>
      let (err, data2, acts) := pullLoop outc (clock + 1) rest (setTime data i clock)
      (err, data2, Action.pullImage i.Image i.Platform :: acts)

/-- src/update.go update: take the lock, read the cache, pull each image,
and only after every pull succeeded call `checkData.write()`.  Inputs: the
lock and read responses, the per-image pull outcomes, a clock, and the
current file contents; outputs the returned error, the file contents after
the call, and the trace.  Lock drop (deferred) and the host filesystem
errors inside write() are elided. -/
def updateRun (images : List ImageDef) (outc : ImageDef → PullOutcome)
    (lockRes : Option String) (readRes : Except String (List (ImageDef × Nat)))
    (clock : Nat) (file : List (ImageDef × Nat)) :
    Option String × List (ImageDef × Nat) × List Action :=
  match lockRes with
  | some e => (some e, file, [])
  | none =>
    match readRes with
    | .error e => (some e, file, [])
    | .ok checkData =>
      let (perr, newData, acts) := pullLoop outc clock images checkData
      match perr with
      | some e => (some e, file, acts)
      | none => (none, newData, acts ++ [.writeCheckData])

/-! ## Concrete fixtures used by witnesses and counterexamples -/

/-- A persistent sample profile. -/
def pPers : Profile :=
  { name := "p", Image := "img:latest", Arch := "arm64", Path := "/home/u/proj",
    Persistent := true }

/-- The same profile in one-shot mode. -/
def pShot : Profile := { pPers with Persistent := false }

/-- A persistent container whose stored profile-data matches `pPers`. -/
def cMatch : ContainerSummary :=
  { ID := "cid0", Labels := [("com.viam.canon.profile-data", profileYaml pPers)] }

/-- A persistent container with stale stored profile-data. -/
def cDrift : ContainerSummary :=
  { ID := "cid1", Labels := [("com.viam.canon.profile-data", "stale")] }

/-- A container with no profile-data label. -/
def cBare : ContainerSummary := { ID := "cid2", Labels := [] }

/-- Engine responses for a creation that succeeds at once and a stream that
emits the readiness line first. -/
def oStartOK : StartOracle :=
  { createRes := .ok "cidNew", pullRes := none, createRes2 := .ok "cidNew",
    startRes := none, attachRes := none,
    streamLines := ["CANON_READY"], streamEndErr := none }

/-- Like `oStartOK` but the stream closes cleanly without the readiness line. -/
def oStartNoReady : StartOracle :=
  { oStartOK with streamLines := ["a", "b"] }

/-- Shell oracle: no persistent container exists; cwd inside the root. -/
def oShellEmpty : ShellOracle :=
  { listPersistent := .ok [], rand := 2748, startO := oStartOK,
    inspectRes := .ok { Image := "sha1", ConfigImage := "img:latest" },
    imageInspectRes := .ok "sha1", cwd := "/home/u/proj/sub" }

/-- Shell oracle: two persistent containers match. -/
def oShellMulti : ShellOracle := { oShellEmpty with listPersistent := .ok [cMatch, cDrift] }

/-- Shell oracle: exactly one matching persistent container. -/
def oShellOne : ShellOracle := { oShellEmpty with listPersistent := .ok [cMatch] }

/-- Shell oracle: no persistent container, cwd outside the profile root. -/
def oShellOutside : ShellOracle := { oShellEmpty with cwd := "/tmp" }

/-! ## C1 -/

/-- C1: for a persistent profile whose label query matches exactly one
container, getPersistentContainer returns that container\x27s ID when its
stored profile-data label equals the serialization of the current profile,
and returns the fatal terminate-and-retry configuration-drift error when
the stored profile-data differs from it or is missing; the stale container
is never silently reused. -/
theorem c1_persistent_reuse_or_drift (p : Profile) (c : ContainerSummary) :
    (lookupLabel c.Labels "com.viam.canon.profile-data" = some (profileYaml p) →
      getPersistentContainer p (.ok [c]) = (.ok c.ID, [.listContainers])) ∧
    (∀ s, lookupLabel c.Labels "com.viam.canon.profile-data" = some s →
      s ≠ profileYaml p →
      getPersistentContainer p (.ok [c]) =
        (.error ("existing container settings for " ++ p.name ++
          " don\x27t match current settings, please terminate all containers and retry"),
          [.listContainers])) ∧
    (lookupLabel c.Labels "com.viam.canon.profile-data" = none →
      getPersistentContainer p (.ok [c]) =
        (.error ("no profile data on persistent container for " ++ p.name ++
          ", please terminate all containers and retry"), [.listContainers])) := by
  refine ⟨fun h => ?_, fun s h hne => ?_, fun h => ?_⟩
  · simp [getPersistentContainer, h]
  · simp [getPersistentContainer, h, hne]
  · simp [getPersistentContainer, h]

set_option maxRecDepth 4000

/-- Witness for C1 at concrete inputs: the matching, drifted and
label-less containers. -/
theorem c1_witness :
    getPersistentContainer pPers (.ok [cMatch]) = (.ok "cid0", [.listContainers]) ∧
    getPersistentContainer pPers (.ok [cDrift]) =
      (.error ("existing container settings for p" ++
        " don\x27t match current settings, please terminate all containers and retry"),
        [.listContainers]) ∧
    getPersistentContainer pPers (.ok [cBare]) =
      (.error ("no profile data on persistent container for p" ++
        ", please terminate all containers and retry"), [.listContainers]) := by
  refine ⟨?_, ?_, ?_⟩
  · exact (c1_persistent_reuse_or_drift pPers cMatch).1 (by decide)
  · exact (c1_persistent_reuse_or_drift pPers cDrift).2.1 "stale" (by decide) (by decide)
  · exact (c1_persistent_reuse_or_drift pPers cBare).2.2 (by decide)

/-! ## C3 -/

/-- C3 as stated is false: the readiness scan returns `scanner.Err()`,
which is nil when the attached stream closes with a clean EOF, so
startContainer reports success (no error) for a stream that never emits
CANON_READY and then closes. -/
theorem c3_counterexample :
    (startContainer pShot 2748 oStartNoReady).1.err = none ∧
    oStartNoReady.streamLines = ["a", "b"] ∧
    oStartNoReady.streamEndErr = none ∧
    goContains "a" "CANON_READY" = false ∧
    goContains "b" "CANON_READY" = false := by
  refine ⟨by rfl, by decide, by decide, by decide, by decide⟩

/-- C3 amended: the scan reads line by line and stops at the first line
containing CANON_READY, returning success without consuming further
output; when the stream ends without the signal the returned error is the
stream\x27s read error, which is none (success) on a clean EOF — an error
is reported only when the stream close itself was a read failure. -/
theorem c3_scan_stops_at_ready (pre : List String) (l : String)
    (post : List String) (ls : List String) (terr : Option String) :
    ((∀ x ∈ pre, goContains x "CANON_READY" = false) →
      goContains l "CANON_READY" = true →
      scanReady (pre ++ l :: post) terr = (none, post)) ∧
    ((∀ x ∈ ls, goContains x "CANON_READY" = false) →
      scanReady ls terr = (terr, [])) := by
  constructor
  · intro hpre hl
    induction pre with
    | nil => simp [scanReady, hl]
    | cons x xs ih =>
      have hx : goContains x "CANON_READY" = false := hpre x (by simp)
      simpa [scanReady, hx] using ih (fun y hy => hpre y (by simp [hy]))
  · intro h
    induction ls with
    | nil => simp [scanReady]
    | cons x xs ih =>
      have hx : goContains x "CANON_READY" = false := h x (by simp)
      simpa [scanReady, hx] using ih (fun y hy => h y (by simp [hy]))

/-- Witness for C3 amended: a stream whose third line carries the signal
stops there leaving the rest unread, and a clean close without the signal
yields no error while an errored close yields that error. -/
theorem c3_scan_witness :
    scanReady ["a", "b", "x CANON_READY", "c", "d"] (some "boom") = (none, ["c", "d"]) ∧
    scanReady ["a", "b"] none = (none, []) ∧
    scanReady ["a", "b"] (some "boom") = (some "boom", []) := by
  refine ⟨?_, ?_, ?_⟩
  · exact (c3_scan_stops_at_ready ["a", "b"] "x CANON_READY" ["c", "d"] [] none).1
      (by decide) (by decide)
  · exact (c3_scan_stops_at_ready [] "" [] ["a", "b"] none).2 (by decide)
  · exact (c3_scan_stops_at_ready [] "" [] ["a", "b"] (some "boom")).2 (by decide)

/-! ## C4 -/

/-- C4 as stated is false: when the inbound (host-stdin to remote) copy
loop completes first with a non-nil error, the bridge returns that error
immediately, without the outbound loop having completed and without any
cancellation. -/
theorem c4_counterexample :
    bridgeSelect (.fromIn (some "write error")) (.outDone none) =
      { result := some "write error", outDrained := false } ∧
    (SecondEv.outDone none).isCancel = false ∧
    ¬ (∀ (e : Option String) (s : SecondEv), s.isCancel = false →
        (bridgeSelect (.fromIn e) s).outDrained = true) := by
  refine ⟨rfl, rfl, fun h => ?_⟩
  have := h (some "write error") (.outDone none) rfl
  simp [bridgeSelect] at this

/-- C4 amended: when the inbound loop completes first with a nil error the
bridge waits for the outbound loop, reporting completion only once it has
finished, unless the cancellation context fires first, in which case the
session is abandoned with the cancellation error; when the inbound loop
completes first with an error, that error is returned immediately without
waiting; when the outbound loop completes first its result is returned
with the output drained. -/
theorem c4_bridge_ordering :
    (∀ s : SecondEv, (bridgeSelect (.fromIn none) s).outDrained = true ∨
      (∃ e, s = .cancelled e ∧
        bridgeSelect (.fromIn none) s = { result := some e, outDrained := false })) ∧
    (∀ (e : String) (s : SecondEv),
      bridgeSelect (.fromIn (some e)) s = { result := some e, outDrained := false }) ∧
    (∀ (e : Option String) (s : SecondEv),
      bridgeSelect (.fromOut e) s = { result := e, outDrained := true }) := by
  refine ⟨fun s => ?_, fun e s => rfl, fun e s => rfl⟩
  cases s with
  | outDone e => exact Or.inl rfl
  | cancelled e => exact Or.inr ⟨e, rfl, rfl⟩

/-! ## Trace lemmas for the creation path -/

/-- Every createWithRetry run begins with a ContainerCreate request. -/
lemma createWithRetry_trace_cons (p : Profile) (r : Nat) (c1 : CreateResult)
    (pullRes : Option String) (c2 : CreateResult) :
    ∃ rest, (createWithRetry p r c1 pullRes c2).2 =
      Action.createContainer (containerName p r) (containerLabels p) :: rest := by
  cases c1 with
  | ok id => exact ⟨[], rfl⟩
  | err m =>
    by_cases hm : isRetryableCreateErr m = true
    · cases pullRes with
      | some pe =>
        refine ⟨[Action.pullImage p.Image ("linux/" ++ p.Arch)], ?_⟩
        simp [createWithRetry, hm]
      | none =>
        cases c2 <;>
          (refine ⟨[Action.pullImage p.Image ("linux/" ++ p.Arch),
            Action.createContainer (containerName p r) (containerLabels p)], ?_⟩
           simp [createWithRetry, hm])
    · refine ⟨[], ?_⟩
      simp [createWithRetry, hm]

/-- Every startContainer run begins with a ContainerCreate request. -/
lemma startContainer_trace_cons (p : Profile) (r : Nat) (o : StartOracle) :
    ∃ rest, (startContainer p r o).2 =
      Action.createContainer (containerName p r) (containerLabels p) :: rest := by
  obtain ⟨rest, hr⟩ := createWithRetry_trace_cons p r o.createRes o.pullRes o.createRes2
  unfold startContainer
  cases hc : createWithRetry p r o.createRes o.pullRes o.createRes2 with
  | mk out acts =>
    rw [hc] at hr
    simp only at hr
    subst hr
    cases out with
    | error e => exact ⟨rest, rfl⟩
    | ok cid =>
      cases o.startRes with
      | some e => exact ⟨rest ++ [Action.startCont cid], by simp⟩
      | none =>
        cases o.attachRes with
        | some e =>
          exact ⟨rest ++ [Action.startCont cid, Action.attachCont cid], by simp⟩
        | none =>
          exact ⟨rest ++ [Action.startCont cid, Action.attachCont cid], by simp⟩

/-- A startContainer trace always contains a creation action. -/
lemma startContainer_any_create (p : Profile) (r : Nat) (o : StartOracle) :
    (startContainer p r o).2.any Action.isCreate = true := by
  obtain ⟨rest, hr⟩ := startContainer_trace_cons p r o
  simp [hr, Action.isCreate]

/-- When the acquisition finds no reusable container, shellAcquire proceeds
through startContainer and its trace is the lookup followed by the
startContainer actions. -/
lemma shellAcquire_fresh_trace (p : Profile) (o : ShellOracle) (acts1 : List Action)
    (h : (if p.Persistent then getPersistentContainer p o.listPersistent
          else (Except.ok "", ([] : List Action))) = (.ok "", acts1)) :
    (shellAcquire p o).2 = acts1 ++ (startContainer p o.rand o.startO).2 := by
  unfold shellAcquire
  rw [h]
  cases hs : startContainer p o.rand o.startO with
  | mk res acts2 =>
    cases res with
    | mk id errOpt =>
      cases errOpt with
      | some e => simp
      | none =>
        cases hw : getWorkingDir p o.cwd with
        | error e => simp [hw]
        | ok wd => simp [hw]

/-- When the fresh path is taken, startContainer succeeds and the working
directory computation fails, shellAcquire returns that failure. -/
lemma shellAcquire_fresh_wd_error (p : Profile) (o : ShellOracle) (acts1 : List Action)
    (h : (if p.Persistent then getPersistentContainer p o.listPersistent
          else (Except.ok "", ([] : List Action))) = (.ok "", acts1))
    (msg : String) (hs : (startContainer p o.rand o.startO).1.err = none)
    (hw : getWorkingDir p o.cwd = .error msg) :
    (shellAcquire p o).1 = .error msg := by
  unfold shellAcquire
  rw [h]
  cases hsc : startContainer p o.rand o.startO with
  | mk res acts2 =>
    rw [hsc] at hs
    cases res with
    | mk id errOpt =>
      simp only at hs
      subst hs
      simp [hw]

/-! ## C2 -/

/-- C2: for a persistent profile, an acquisition that finds zero
label-matching containers returns no error and the empty ID and the shell
proceeds to create a container; an acquisition that finds two or more
matches fails with the ambiguity error after the lookup alone, performing
no create, start, stop or remove. -/
theorem c2_acquire_zero_and_multi (p : Profile) (o : ShellOracle)
    (hp : p.Persistent = true) :
    (o.listPersistent = .ok [] →
      getPersistentContainer p o.listPersistent = (.ok "", [.listContainers]) ∧
      (shellAcquire p o).2.any Action.isCreate = true) ∧
    (∀ cs, o.listPersistent = .ok cs → 2 ≤ cs.length →
      shellAcquire p o =
        (.error ("more than one container is running for profile " ++ p.name ++
          ", please terminate all containers and retry"), [.listContainers]) ∧
      (shellAcquire p o).2.any Action.isMutation = false) := by
  constructor
  · intro h
    have h0 : getPersistentContainer p o.listPersistent = (.ok "", [.listContainers]) := by
      rw [h]; rfl
    refine ⟨h0, ?_⟩
    have ht := shellAcquire_fresh_trace p o [.listContainers] (by simp [hp, h0])
    rw [ht]
    simp [List.any_append, startContainer_any_create]
  · intro cs h h2
    have hgt : cs.length > 1 := h2
    have h0 : getPersistentContainer p o.listPersistent =
        (.error ("more than one container is running for profile " ++ p.name ++
          ", please terminate all containers and retry"), [.listContainers]) := by
      rw [h]
      simp [getPersistentContainer, hgt]
    have hres : shellAcquire p o =
        (.error ("more than one container is running for profile " ++ p.name ++
          ", please terminate all containers and retry"), [.listContainers]) := by
      unfold shellAcquire
      simp only [hp, if_true]
      rw [h0]
    refine ⟨hres, ?_⟩
    rw [hres]
    simp [Action.isMutation]

/-- Witness for C2: zero matches with `oShellEmpty` and two matches with
`oShellMulti`. -/
theorem c2_witness :
    (getPersistentContainer pPers oShellEmpty.listPersistent =
      (.ok "", [.listContainers]) ∧
      (shellAcquire pPers oShellEmpty).2.any Action.isCreate = true) ∧
    (shellAcquire pPers oShellMulti =
      (.error ("more than one container is running for profile p" ++
        ", please terminate all containers and retry"), [.listContainers]) ∧
      (shellAcquire pPers oShellMulti).2.any Action.isMutation = false) := by
  constructor
  · exact (c2_acquire_zero_and_multi pPers oShellEmpty rfl).1 rfl
  · exact (c2_acquire_zero_and_multi pPers oShellMulti rfl).2
      [cMatch, cDrift] rfl (by decide)

/-! ## C5 -/

/-- C5 as stated is false on two counts: the containment check is a plain
string-prefix test, so a host directory that is not a descendant of the
profile root but shares its string prefix (root `/home/u/proj`, cwd
`/home/u/project2`) is accepted and mapped to `/host/ect2`; and the shell
computes the working directory only after acquiring the container, so for
a cwd outside the root the invocation fails after a container was already
created. -/
theorem c5_counterexample :
    (goHasPref "/home/u/project2" ("/home/u/proj" ++ "/") = false ∧
      "/home/u/project2" ≠ "/home/u/proj" ∧
      pShot.Path = "/home/u/proj" ∧
      getWorkingDir pShot "/home/u/project2" = .ok "/host/ect2") ∧
    (oShellOutside.cwd = "/tmp" ∧
      (shellAcquire pShot oShellOutside).1 =
        .error "current directory is not within the current profile\x27s path" ∧
      (shellAcquire pShot oShellOutside).2.any Action.isCreate = true) := by
  refine ⟨⟨by decide, by decide, rfl, by rfl⟩, rfl, ?_, ?_⟩
  · exact shellAcquire_fresh_wd_error pShot oShellOutside [] (by simp [pShot])
      _ rfl rfl
  · have ht := shellAcquire_fresh_trace pShot oShellOutside [] (by simp [pShot])
    rw [ht]
    simp [List.any_append, startContainer_any_create]

/-- C5 amended: getWorkingDir maps the host cwd into the container as
mountpoint + (cwd with the string prefix profile.Path removed) — profile
root /home/u/proj and cwd /home/u/proj/sub yield /host/sub — and fails
exactly when cwd does not start with profile.Path as a string (so a
non-descendant sharing the string prefix is accepted); and in shell the
working-directory computation runs only after container acquisition, so
its failure is reported after the container was created, not before. -/
theorem c5_workdir_mapping :
    (∀ (p : Profile) (cwd : String), goHasPref cwd p.Path = true →
      getWorkingDir p cwd = .ok (filepathJoin [canonMountPoint, goTrimPref cwd p.Path])) ∧
    (∀ (p : Profile) (cwd : String), goHasPref cwd p.Path = false →
      getWorkingDir p cwd =
        .error "current directory is not within the current profile\x27s path") ∧
    getWorkingDir pShot "/home/u/proj/sub" = .ok "/host/sub" ∧
    (∀ (p : Profile) (o : ShellOracle) (msg : String), p.Persistent = false →
      (startContainer p o.rand o.startO).1.err = none →
      getWorkingDir p o.cwd = .error msg →
      (shellAcquire p o).1 = .error msg ∧
      (shellAcquire p o).2.any Action.isCreate = true) := by
  refine ⟨fun p cwd h => ?_, fun p cwd h => ?_, by rfl, fun p o msg hp hs hw => ⟨?_, ?_⟩⟩
  · simp [getWorkingDir, h]
  · simp [getWorkingDir, h]
  · exact shellAcquire_fresh_wd_error p o [] (by simp [hp]) msg hs hw
  · have ht := shellAcquire_fresh_trace p o [] (by simp [hp])
    rw [ht]
    simp [List.any_append, startContainer_any_create]

/-- Witness for C5 amended at concrete inputs: the in-root mapping, the
outside-root failure, and the fresh-path ordering with `oShellOutside`. -/
theorem c5_witness :
    getWorkingDir pShot "/home/u/proj/sub" =
      .ok (filepathJoin [canonMountPoint, goTrimPref "/home/u/proj/sub" pShot.Path]) ∧
    getWorkingDir pShot "/tmp" =
      .error "current directory is not within the current profile\x27s path" ∧
    ((shellAcquire pShot oShellOutside).1 =
      .error "current directory is not within the current profile\x27s path" ∧
      (shellAcquire pShot oShellOutside).2.any Action.isCreate = true) := by
  refine ⟨?_, ?_, ?_⟩
  · exact c5_workdir_mapping.1 pShot "/home/u/proj/sub" (by decide)
  · exact c5_workdir_mapping.2.1 pShot "/tmp" (by decide)
  · exact c5_workdir_mapping.2.2.2 pShot oShellOutside _ rfl rfl (by rfl)

/-! ## C6 -/

/-- C6: on a first creation failure whose message marks a missing image or
a platform mismatch, the image pull runs synchronously and creation is
retried exactly once, with any failure of the pull or of the retry
returned; a first creation failure of any other kind is returned at once,
with no pull and no retry; a successful first creation performs no pull. -/
theorem c6_create_retry (p : Profile) (r : Nat) (m : String)
    (pullRes : Option String) (c2 : CreateResult) :
    (∀ id, createWithRetry p r (.ok id) pullRes c2 =
      (.ok id, [Action.createContainer (containerName p r) (containerLabels p)])) ∧
    (isRetryableCreateErr m = true →
      (∀ pe, pullRes = some pe →
        createWithRetry p r (.err m) pullRes c2 =
          (.error pe, [Action.createContainer (containerName p r) (containerLabels p),
            Action.pullImage p.Image ("linux/" ++ p.Arch)])) ∧
      (pullRes = none →
        createWithRetry p r (.err m) pullRes c2 =
          ((match c2 with | .ok id => Except.ok id | .err m2 => Except.error m2),
           [Action.createContainer (containerName p r) (containerLabels p),
            Action.pullImage p.Image ("linux/" ++ p.Arch),
            Action.createContainer (containerName p r) (containerLabels p)]))) ∧
    (isRetryableCreateErr m = false →
      createWithRetry p r (.err m) pullRes c2 =
        (.error m, [Action.createContainer (containerName p r) (containerLabels p)])) := by
  refine ⟨fun id => rfl, fun hm => ⟨fun pe hpe => ?_, fun hn => ?_⟩, fun hm => ?_⟩
  · subst hpe
    simp [createWithRetry, hm]
  · subst hn
    cases c2 <;> simp [createWithRetry, hm]
  · simp [createWithRetry, hm]

/-- Witness for C6: a retryable message with a failing pull, a retryable
message with a successful pull and failing retry, a non-retryable message,
and a successful first creation. -/
theorem c6_witness :
    createWithRetry pShot 1 (.ok "x") none (.ok "x") =
      (.ok "x", [Action.createContainer (containerName pShot 1) (containerLabels pShot)]) ∧
    createWithRetry pShot 1 (.err "No such image: img:latest") (some "pull failed") (.ok "x") =
      (.error "pull failed",
        [Action.createContainer (containerName pShot 1) (containerLabels pShot),
         Action.pullImage pShot.Image ("linux/" ++ pShot.Arch)]) ∧
    createWithRetry pShot 1 (.err "No such image: img:latest") none (.err "still failing") =
      (.error "still failing",
        [Action.createContainer (containerName pShot 1) (containerLabels pShot),
         Action.pullImage pShot.Image ("linux/" ++ pShot.Arch),
         Action.createContainer (containerName pShot 1) (containerLabels pShot)]) ∧
    createWithRetry pShot 1 (.err "permission denied") (some "pull failed") (.ok "x") =
      (.error "permission denied",
        [Action.createContainer (containerName pShot 1) (containerLabels pShot)]) := by
  refine ⟨?_, ?_, ?_, ?_⟩
  · exact (c6_create_retry pShot 1 "" none (.ok "x")).1 "x"
  · exact ((c6_create_retry pShot 1 "No such image: img:latest"
      (some "pull failed") (.ok "x")).2.1 (by decide)).1 "pull failed" rfl
  · exact ((c6_create_retry pShot 1 "No such image: img:latest"
      none (.err "still failing")).2.1 (by decide)).2 rfl
  · exact (c6_create_retry pShot 1 "permission denied"
      (some "pull failed") (.ok "x")).2.2 (by decide)

/-! ## C7 -/

/-- The stop/terminate loop attempts every container and accumulates the
failures. -/
lemma stopLoop_eq (terminate : Bool) (sr rr : String → Option String)
    (cs : List ContainerSummary) :
    stopLoop terminate sr rr cs =
      (cs.filterMap (fun c => if terminate then rr c.ID else sr c.ID),
       cs.map (fun c => if terminate then Action.removeCont c.ID else Action.stopCont c.ID)) := by
  induction cs with
  | nil => rfl
  | cons c rest ih =>
    cases terminate with
    | true =>
      cases h : rr c.ID <;> simp [stopLoop, ih, h]
    | false =>
      cases h : sr c.ID <;> simp [stopLoop, ih, h]

/-- C7: a stop/terminate request matching two or more containers with
all=false performs zero stop or remove calls and returns the retry-with-
--all ambiguity error; with all=true it attempts the stop (or
force-remove) on every matching container and returns the accumulated
list of every per-container failure rather than stopping at the first. -/
theorem c7_stop_ambiguity_and_aggregate :
    (∀ (p : Profile) (terminate : Bool) (c1 c2 : ContainerSummary)
        (rest : List ContainerSummary) (sr rr : String → Option String),
      stop p false terminate (.ok (c1 :: c2 :: rest)) sr rr =
        (["multiple matching containers found, please retry with \x27--all\x27 option"],
          [.listContainers]) ∧
      (stop p false terminate (.ok (c1 :: c2 :: rest)) sr rr).2.any Action.isMutation
        = false) ∧
    (∀ (p : Profile) (terminate : Bool) (cs : List ContainerSummary)
        (sr rr : String → Option String),
      stop p true terminate (.ok cs) sr rr =
        (cs.filterMap (fun c => if terminate then rr c.ID else sr c.ID),
         Action.listContainers ::
           cs.map (fun c =>
             if terminate then Action.removeCont c.ID else Action.stopCont c.ID))) := by
  constructor
  · intro p terminate c1 c2 rest sr rr
    have hcond : (c1 :: c2 :: rest).length > 1 := by simp
    constructor
    · simp [stop, hcond]
    · simp [stop, hcond, Action.isMutation]
  · intro p terminate cs sr rr
    simp [stop, stopLoop_eq]

/-- Witness for C7: two matching containers; with all=false the ambiguity
error and the lookup-only trace, with all=true one attempt per container
and both failures collected. -/
theorem c7_witness :
    stop pPers false false (.ok [cMatch, cDrift])
        (fun _ => some "stop failed") (fun _ => none) =
      (["multiple matching containers found, please retry with \x27--all\x27 option"],
        [.listContainers]) ∧
    stop pPers true false (.ok [cMatch, cDrift])
        (fun id => some ("cannot stop " ++ id)) (fun _ => none) =
      (["cannot stop cid0", "cannot stop cid1"],
        [.listContainers, .stopCont "cid0", .stopCont "cid1"]) ∧
    stop pPers true true (.ok [cMatch, cDrift])
        (fun _ => none) (fun id => if id = "cid1" then some ("cannot remove " ++ id) else none) =
      (["cannot remove cid1"],
        [.listContainers, .removeCont "cid0", .removeCont "cid1"]) := by
  refine ⟨?_, ?_, ?_⟩
  · exact (c7_stop_ambiguity_and_aggregate.1 pPers false cMatch cDrift []
      (fun _ => some "stop failed") (fun _ => none)).1
  · have h := c7_stop_ambiguity_and_aggregate.2 pPers false [cMatch, cDrift]
      (fun id => some ("cannot stop " ++ id)) (fun _ => none)
    simpa [cMatch, cDrift] using h
  · have h := c7_stop_ambiguity_and_aggregate.2 pPers true [cMatch, cDrift]
      (fun _ => none)
      (fun id => if id = "cid1" then some ("cannot remove " ++ id) else none)
    simpa [cMatch, cDrift] using h

/-! ## C8 -/

/-- getPersistentContainer on a single match whose stored profile-data
equals the current serialization returns that container. -/
lemma getPersistentContainer_match (p : Profile) (c : ContainerSummary)
    (h : lookupLabel c.Labels "com.viam.canon.profile-data" = some (profileYaml p)) :
    getPersistentContainer p (.ok [c]) = (.ok c.ID, [.listContainers]) := by
  simp [getPersistentContainer, h]

/-- The image-version check only inspects; it never creates, starts, stops
or removes a container. -/
lemma checkVersion_no_mutation (cid : String) (ir : Except String InspectInfo)
    (iir : Except String String) :
    ((checkContainerImageVersion cid ir iir).2.any Action.isMutation) = false := by
  unfold checkContainerImageVersion
  cases ir with
  | error e => simp [Action.isMutation]
  | ok info => cases iir <;> simp [Action.isMutation]

/-- C8: checkContainerImageVersion reports no drift (false) exactly when
the inspected container\x27s image ID equals the ID of the image currently
bearing the container\x27s configured image name, and drift (true)
otherwise; and a session that reuses a persistent container only records
the drift flag (printing a warning) and proceeds, performing no
container-mutating action. -/
theorem c8_image_drift (cid : String) (info : InspectInfo) (imgID : String) :
    ((checkContainerImageVersion cid (.ok info) (.ok imgID)).1 = .ok false ↔
      imgID = info.Image) ∧
    ((checkContainerImageVersion cid (.ok info) (.ok imgID)).1 = .ok true ↔
      imgID ≠ info.Image) ∧
    (∀ (p : Profile) (o : ShellOracle) (c : ContainerSummary) (needsUpdate : Bool)
        (wd : String),
      p.Persistent = true → o.listPersistent = .ok [c] →
      lookupLabel c.Labels "com.viam.canon.profile-data" = some (profileYaml p) →
      c.ID ≠ "" →
      (checkContainerImageVersion c.ID o.inspectRes o.imageInspectRes).1 =
        .ok needsUpdate →
      getWorkingDir p o.cwd = .ok wd →
      (shellAcquire p o).1 = .ok ⟨c.ID, needsUpdate, wd⟩ ∧
      (shellAcquire p o).2.any Action.isMutation = false) := by
  refine ⟨?_, ?_, ?_⟩
  · constructor
    · intro h
      by_cases he : imgID = info.Image
      · exact he
      · simp [checkContainerImageVersion, he] at h
    · intro he
      simp [checkContainerImageVersion, he]
  · constructor
    · intro h he
      simp [checkContainerImageVersion, he] at h
    · intro he
      simp only [checkContainerImageVersion]
      rw [if_neg (by simpa using he)]
  · intro p o c needsUpdate wd hp hlist hlabel hcid hchk hwd
    have h0 : getPersistentContainer p o.listPersistent = (.ok c.ID, [.listContainers]) := by
      rw [hlist]
      exact getPersistentContainer_match p c hlabel
    have hmut := checkVersion_no_mutation c.ID o.inspectRes o.imageInspectRes
    unfold shellAcquire
    simp only [hp, if_true]
    rw [h0]
    simp only
    rw [if_pos hcid]
    cases hck : checkContainerImageVersion c.ID o.inspectRes o.imageInspectRes with
    | mk chkRes acts2 =>
      rw [hck] at hchk hmut
      simp only at hchk hmut
      subst hchk
      simp [hwd, List.any_append, hmut, Action.isMutation]

/-- Witness for C8: one matching persistent container on an up-to-date
image; the session reuses it, reports no drift and mutates nothing. -/
theorem c8_witness :
    ((checkContainerImageVersion "cid0"
        (.ok { Image := "sha1", ConfigImage := "img:latest" }) (.ok "sha1")).1 =
      .ok false ↔ True) ∧
    ((checkContainerImageVersion "cid0"
        (.ok { Image := "sha1", ConfigImage := "img:latest" }) (.ok "sha2")).1 =
      .ok true ↔ True) ∧
    ((shellAcquire pPers oShellOne).1 = .ok ⟨"cid0", false, "/host/sub"⟩ ∧
      (shellAcquire pPers oShellOne).2.any Action.isMutation = false) := by
  refine ⟨?_, ?_, ?_⟩
  · simp only [iff_true]
    exact (c8_image_drift "cid0" { Image := "sha1", ConfigImage := "img:latest" }
      "sha1").1.mpr rfl
  · simp only [iff_true]
    exact (c8_image_drift "cid0" { Image := "sha1", ConfigImage := "img:latest" }
      "sha2").2.1.mpr (by decide)
  · exact (c8_image_drift "" { Image := "", ConfigImage := "" } "").2.2
      pPers oShellOne cMatch false "/host/sub" rfl rfl (by decide) (by decide) rfl rfl

/-! ## C9 -/

/-- C9 as stated is false: a container created for a persistent profile is
also named with a random suffix — `canon-<profile>-<hex>` — not exactly
`canon-<profile>`. -/
theorem c9_counterexample :
    pPers.Persistent = true ∧
    containerName pPers 2748 = "canon-p-abc" ∧
    containerName pPers 2748 ≠ "canon-" ++ pPers.name ∧
    (startContainer pPers 2748 oStartOK).2.head? =
      some (.createContainer "canon-p-abc" (containerLabels pPers)) := by
  refine ⟨rfl, by decide, by decide, by rfl⟩

/-- C9 amended: every container created by startContainer is named
`canon-<profile>-<random-suffix>` whether the profile is one-shot or
persistent, and carries the labels type (one-shot or persistent), profile
(`<name>/<arch>`) and profile-data (the serialized profile snapshot);
the creation request in the trace uses exactly this name and label set. -/
theorem c9_name_and_labels (p : Profile) (r : Nat) (o : StartOracle) :
    containerName p r = "canon-" ++ p.name ++ "-" ++ goHexStr r ∧
    lookupLabel (containerLabels p) "com.viam.canon.type" =
      some (if p.Persistent then "persistent" else "one-shot") ∧
    lookupLabel (containerLabels p) "com.viam.canon.profile" =
      some (p.name ++ "/" ++ p.Arch) ∧
    lookupLabel (containerLabels p) "com.viam.canon.profile-data" =
      some (profileYaml p) ∧
    (∃ rest, (startContainer p r o).2 =
      Action.createContainer (containerName p r) (containerLabels p) :: rest) := by
  refine ⟨rfl, ?_, ?_, ?_, startContainer_trace_cons p r o⟩ <;>
    simp [lookupLabel, containerLabels]

/-! ## C10 -/

/-- If every image before `i` pulls cleanly and `i` fails, the pull loop
stops at `i` with its error, having attempted no later pull. -/
lemma pullLoop_first_err (outc : ImageDef → PullOutcome) (pre : List ImageDef)
    (i : ImageDef) (post : List ImageDef) (e : String)
    (hpre : ∀ j ∈ pre, (outc j).firstErr = none)
    (hi : (outc i).firstErr = some e) :
    ∀ (clock : Nat) (data : List (ImageDef × Nat)),
      ∃ d, pullLoop outc clock (pre ++ i :: post) data =
        (some e, d,
          pre.map (fun j => Action.pullImage j.Image j.Platform) ++
            [Action.pullImage i.Image i.Platform]) := by
  induction pre with
  | nil =>
    intro clock data
    exact ⟨data, by simp [pullLoop, hi]⟩
  | cons x xs ih =>
    intro clock data
    have hx : (outc x).firstErr = none := hpre x (by simp)
    obtain ⟨d, hd⟩ := ih (fun j hj => hpre j (by simp [hj])) (clock + 1) (setTime data x clock)
    exact ⟨d, by simp [pullLoop, hx, hd]⟩

/-- If every pull succeeds, the loop attempts each image in order and
reports no error. -/
lemma pullLoop_all_ok (outc : ImageDef → PullOutcome) (images : List ImageDef)
    (h : ∀ j ∈ images, (outc j).firstErr = none) :
    ∀ (clock : Nat) (data : List (ImageDef × Nat)),
      ∃ d, pullLoop outc clock images data =
        (none, d, images.map (fun j => Action.pullImage j.Image j.Platform)) := by
  induction images with
  | nil => intro clock data; exact ⟨data, rfl⟩
  | cons x xs ih =>
    intro clock data
    have hx : (outc x).firstErr = none := h x (by simp)
    obtain ⟨d, hd⟩ := ih (fun j hj => h j (by simp [hj])) (clock + 1) (setTime data x clock)
    exact ⟨d, by simp [pullLoop, hx, hd]⟩

/-- C10: the update-timestamp cache is written only after every requested
pull has succeeded: when some pull (or its progress display or stream
close) fails, update returns that error with the cache file unchanged and
no write performed — the timestamps of images pulled successfully earlier
in the same call are not recorded either — and when all pulls succeed the
write happens after the pulls. -/
theorem c10_update_write_only_after_pulls :
    (∀ (pre post : List ImageDef) (i : ImageDef) (outc : ImageDef → PullOutcome)
        (clock : Nat) (checkData file : List (ImageDef × Nat)) (e : String),
      (∀ j ∈ pre, (outc j).firstErr = none) →
      (outc i).firstErr = some e →
      updateRun (pre ++ i :: post) outc none (.ok checkData) clock file =
        (some e, file,
          pre.map (fun j => Action.pullImage j.Image j.Platform) ++
            [Action.pullImage i.Image i.Platform]) ∧
      ((updateRun (pre ++ i :: post) outc none (.ok checkData) clock file).2.2.contains
        Action.writeCheckData) = false) ∧
    (∀ (images : List ImageDef) (outc : ImageDef → PullOutcome) (clock : Nat)
        (checkData file : List (ImageDef × Nat)),
      (∀ j ∈ images, (outc j).firstErr = none) →
      ∃ d, updateRun images outc none (.ok checkData) clock file =
        (none, d,
          images.map (fun j => Action.pullImage j.Image j.Platform) ++
            [Action.writeCheckData])) := by
  constructor
  · intro pre post i outc clock checkData file e hpre hi
    obtain ⟨d, hd⟩ := pullLoop_first_err outc pre i post e hpre hi clock checkData
    have hrun : updateRun (pre ++ i :: post) outc none (.ok checkData) clock file =
        (some e, file,
          pre.map (fun j => Action.pullImage j.Image j.Platform) ++
            [Action.pullImage i.Image i.Platform]) := by
      simp [updateRun, hd]
    refine ⟨hrun, ?_⟩
    rw [hrun]
    simp [List.contains]
  · intro images outc clock checkData file h
    obtain ⟨d, hd⟩ := pullLoop_all_ok outc images h clock checkData
    exact ⟨d, by simp [updateRun, hd]⟩

/-- Sample images for the C10 witness. -/
def imgA : ImageDef := { Image := "a", Platform := "linux/amd64" }

def imgB : ImageDef := { Image := "b", Platform := "linux/amd64" }

def imgC : ImageDef := { Image := "c", Platform := "linux/amd64" }

/-- A pull iteration with every step succeeding. -/
def pullOK : PullOutcome := { pullErr := none, displayErr := none, closeErr := none }

/-- A pull iteration whose ImagePull call fails. -/
def pullFailed : PullOutcome :=
  { pullErr := some "pull failed", displayErr := none, closeErr := none }

/-- Pull outcomes for the C10 witness: only image b fails. -/
def outcB (i : ImageDef) : PullOutcome := if i.Image = "b" then pullFailed else pullOK

/-- The prior on-disk cache contents for the C10 witness. -/
def fileBefore : List (ImageDef × Nat) := [({ Image := "old", Platform := "linux/arm64" }, 5)]

/-- Witness for C10: three images of which the second fails to pull; the
error is returned, the file keeps its prior contents with no timestamp for
the successfully pulled first image, and no write occurs; with all pulls
succeeding the write follows the pulls. -/
theorem c10_witness :
    updateRun [imgA, imgB, imgC] outcB none (.ok []) 7 fileBefore =
      (some "pull failed", fileBefore,
        [Action.pullImage "a" "linux/amd64", Action.pullImage "b" "linux/amd64"]) ∧
    (∃ d, updateRun [imgA] (fun _ => pullOK) none (.ok []) 7 [] =
      (none, d, [Action.pullImage "a" "linux/amd64", Action.writeCheckData])) := by
  constructor
  · exact (c10_update_write_only_after_pulls.1
      [imgA] [imgC] imgB outcB 7 [] fileBefore "pull failed"
      (by decide) (by decide)).1
  · exact c10_update_write_only_after_pulls.2 [imgA] (fun _ => pullOK) 7 [] [] (by decide)

end Canon
